import Mathlib

/-!
Shallow embedding of a TypeScript CRUD API layer (Next.js route handlers over
Prisma, Joi validation, bcrypt hashing, nodemailer relay, NextAuth credentials
sign-in) together with theorems settling the specification claims.

Conventions of the embedding:
* Request bodies are given as already-parsed records of optional fields
  (absent JSON key = `none`); unknown extra keys are not modelled.
* The Prisma database is a record of row lists; Prisma calls that can throw
  (missing row, foreign-key violation, unique-constraint violation) are
  modelled by explicit checks mirroring the constraints the schema declares
  (User→Role, UserProfile→User, Request→User, ActivityLog→User foreign keys;
  unique username/email).
* External library functions (bcrypt's hash, Joi's email format check,
  JS `parseInt`, JS `String.prototype.startsWith`) are modelled by executable
  Lean functions faithful to the observable behaviour the handlers rely on.
* Every handler returns the HTTP response it produces, the database after the
  call, and (where a claim is about ordering) the trace of successful writes
  in the order they were issued.
-/

/-- A JSON value, the shape of all request/response bodies. -/
inductive JVal where
  | null : JVal
  | str : String → JVal
  | num : Int → JVal
  | bool : Bool → JVal
  | obj : List (String × JVal) → JVal
  | arr : List JVal → JVal

/-- Field lookup in a JSON object. -/
def jlookup : JVal → String → Option JVal
  | JVal.obj fields, k => (fields.find? (fun kv => kv.1 == k)).map (fun kv => kv.2)
  | _, _ => none

/-- An HTTP response: status code plus optional JSON body
(`new NextResponse(null)` has no body; `NextResponse.json x` has body `some x`). -/
structure HttpResponse where
  status : Nat
  body : Option JVal

/-- `NextResponse.json { error: msg }`. -/
def errObj (msg : String) : JVal := JVal.obj [("error", JVal.str msg)]

/-- Prefix test on character lists (helper for `strStartsWith`). -/
def listStarts : List Char → List Char → Bool
  | _, [] => true
  | [], _ :: _ => false
  | a :: as, b :: bs => a == b && listStarts as bs

/-- Models JS `s.startsWith(pre)`: does `s` begin with the string `pre`. -/
def strStartsWith (s pre : String) : Bool := listStarts s.toList pre.toList

namespace AuthRoute

/-- The NextAuth `redirect` callback from the credentials sign-in route:
`return url.startsWith(baseUrl) ? baseUrl : url`. -/
def redirect (url baseUrl : String) : String :=
  if strStartsWith url baseUrl then baseUrl else url

end AuthRoute

/-- C1: the sign-in redirect callback does NOT guard against open redirects:
for a caller-supplied URL that does not share the application's origin, the
callback returns that external URL unchanged (and for a same-origin URL it
returns the base URL rather than the caller-supplied URL), contradicting the
claimed policy of never returning an external URL. Evaluated at the failing
input `url = "https://evil.example/phish"`, `baseUrl = "https://app.example.com"`. -/
theorem c1_redirect_returns_external_url :
    strStartsWith "https://evil.example/phish" "https://app.example.com" = false ∧
    AuthRoute.redirect "https://evil.example/phish" "https://app.example.com" =
      "https://evil.example/phish" ∧
    AuthRoute.redirect "https://app.example.com/dashboard" "https://app.example.com" =
      "https://app.example.com" := by
  refine ⟨by decide, by decide, by decide⟩

/-! ## Data model: persisted rows and the Prisma database -/

/-- A Role row (name is unique; permissions are irrelevant to the claims). -/
structure RoleRow where
  id : Int
  name : String
deriving DecidableEq

/-- A User row as persisted: the password field holds the bcrypt hash. -/
structure UserRow where
  id : Int
  username : String
  email : String
  password : String
  roleId : Int
deriving DecidableEq

/-- A UserProfile row, keyed by its user's id (zero-or-one per user). -/
structure UserProfileRow where
  userId : Int
  firstName : Option String
  lastName : Option String
  phone : Option String
  address : Option String
deriving DecidableEq

/-- A Request row. -/
structure RequestRow where
  id : Int
  userId : Int
  description : String
  status : String
deriving DecidableEq

/-- An ActivityLog row. -/
structure ActivityLogRow where
  userId : Int
  action : String
  description : String
deriving DecidableEq

/-- The relational store: five entity tables. -/
structure DB where
  roles : List RoleRow
  users : List UserRow
  profiles : List UserProfileRow
  requests : List RequestRow
  logs : List ActivityLogRow
deriving DecidableEq

/-- Autoincremented id for a new Request row. -/
def nextRequestId (db : DB) : Int := (db.requests.map (fun r => r.id)).foldr max 0 + 1

/-- Autoincremented id for a new User row. -/
def nextUserId (db : DB) : Int := (db.users.map (fun u => u.id)).foldr max 0 + 1

/-- One successful database write, for ordering-sensitive claims. -/
inductive DbOp where
  | createRequest (id userId : Int)
  | updateRequest (id : Int)
  | deleteRequest (id : Int)
  | createLog (userId : Int) (action : String) (description : String)
  | deleteProfile (userId : Int)
  | deleteRequestsOf (userId : Int)
  | deleteUser (id : Int)
deriving DecidableEq

/-- Is the write an activity-log insertion? -/
def DbOp.isLog : DbOp → Bool
  | DbOp.createLog _ _ _ => true
  | _ => false

/-- Result of a handler call: response, database after the call, and the
trace of successful writes in issue order. -/
structure HResult where
  resp : HttpResponse
  db : DB
  trace : List DbOp

/-! ## Models of the external library functions the handlers use -/

/-- Models bcrypt hashing (`bcrypt.hash(p, 10)` / `bcrypt.hashSync(p, 10)`):
an uninterpreted but executable injective function; the digest is never equal
to the plaintext (it is strictly longer). -/
def bcryptHash (password : String) : String := "$2b$10$" ++ password

/-- Leading decimal digits of a character list (helper for `parseIntJs`). -/
def leadingDigits : List Char → List Char
  | [] => []
  | c :: cs => if c.isDigit then c :: leadingDigits cs else []

/-- Models JS `parseInt` applied to a possibly-null string (query parameter or
path segment): parses leading decimal digits, `NaN` becomes `none`. The
handlers only ever meet nonnegative ids. -/
def parseIntJs : Option String → Option Int
  | none => none
  | some s =>
    match leadingDigits s.toList with
    | [] => none
    | ds => some (Int.ofNat (ds.foldl (fun acc c => acc * 10 + (c.toNat - 48)) 0))

/-- Split a character list at every occurrence of `c` (helper for `emailOk`). -/
def splitOnChar (c : Char) : List Char → List (List Char)
  | [] => [[]]
  | x :: xs =>
    match splitOnChar c xs, x == c with
    | r, true => [] :: r
    | [], false => [[x]]
    | y :: ys, false => (x :: y) :: ys

/-- Models Joi's `string().email({ tlds: { allow: false } })` format check:
one `@`, nonempty local part, domain of at least two nonempty dot-separated
labels. -/
def emailOk (s : String) : Bool :=
  match splitOnChar '@' s.toList with
  | [lp, dom] =>
    !lp.isEmpty && !dom.isEmpty &&
      (splitOnChar '.' dom).all (fun p => !p.isEmpty) &&
      2 ≤ (splitOnChar '.' dom).length
  | _ => false

/-- Models Joi's `string().alphanum().min(3).max(30)` check. -/
def usernameOk (s : String) : Bool :=
  s.toList.all Char.isAlphanum && 3 ≤ s.length && s.length ≤ 30

/-- Joi's `error.details.map(e => e.message).join(', ')`. -/
def joinComma : List String → String
  | [] => ""
  | [s] => s
  | s :: rest => s ++ ", " ++ joinComma rest

/-! ## Requests route: `requestSchema`, `logActivity`, GET/POST/PUT/DELETE -/

/-- A parsed body for the requests route: the three fields `requestSchema`
knows about, each possibly absent. -/
structure ReqBody where
  userId : Option Int
  description : Option String
  status : Option String
deriving DecidableEq

/-- Validated value of `requestSchema`: required userId and description,
status defaulted to `"pending"`. -/
structure ReqData where
  userId : Int
  description : String
  status : String
deriving DecidableEq

/-- The `valid(...)` list of `requestSchema`'s status field — note `'rejected'`
is not among them in the source. -/
def statusValues : List String := ["pending", "in-progress", "completed"]

/-- Joi's message for a status outside the `valid(...)` list. -/
def statusMsg : String := "status must be one of pending, in-progress, completed"

/-- Status-field errors of `requestSchema` (helper for `requestSchemaValidate`). -/
def statusErrs (b : ReqBody) : List String :=
  match b.status with
  | none => []
  | some s => if statusValues.contains s then [] else [statusMsg]

/-- Description-field errors of `requestSchema` (helper for `requestSchemaValidate`). -/
def descErrs (b : ReqBody) : List String :=
  match b.description with
  | none => ["description is required"]
  | some d => if d.length < 10 then ["description length must be at least 10 characters long"] else []

/-- Models `requestSchema.validate(body)`: `userId` required number,
`description` required with at least 10 characters, `status` optional within
the fixed list and defaulting to `"pending"`. Returns either the list of all
violation messages (Joi with `abortEarly: false`; callers using the default
`abortEarly: true` take the head) or the validated value. -/
def requestSchemaValidate (b : ReqBody) : Except (List String) ReqData :=
  match b.userId with
  | none => Except.error (["userId is required"] ++ descErrs b ++ statusErrs b)
  | some uid =>
    match b.description with
    | none => Except.error (["description is required"] ++ statusErrs b)
    | some d =>
      if d.length < 10 then
        Except.error (["description length must be at least 10 characters long"] ++ statusErrs b)
      else
        match b.status with
        | none => Except.ok ⟨uid, d, "pending"⟩
        | some s =>
          if statusValues.contains s then Except.ok ⟨uid, d, s⟩ else Except.error [statusMsg]

/-- `logActivity` from the requests route: `prisma.activityLog.create` with the
given userId, action and description; throws (here `none`) when the
ActivityLog→User foreign key is violated. -/
def logActivity (db : DB) (userId : Int) (action : String) (description : String) : Option DB :=
  if db.users.any (fun u => u.id == userId) then
    some { db with logs := db.logs ++ [⟨userId, action, description⟩] }
  else none

/-- JSON rendering of a Request row. -/
def requestToJson (r : RequestRow) : JVal :=
  JVal.obj [("id", JVal.num r.id), ("userId", JVal.num r.userId),
            ("description", JVal.str r.description), ("status", JVal.str r.status)]

namespace RequestsRoute

/-- `POST /requests`: validate the body with `requestSchema` (400 with the
first message on failure), `prisma.request.create` (throws into the catch —
500 — if the Request→User foreign key fails), then `logActivity(userId,
'CREATE', ...)`; 201 with the created row on success. -/
def POST (db : DB) (b : ReqBody) : HResult :=
  match requestSchemaValidate b with
  | Except.error es => ⟨⟨400, some (errObj (es.headD ""))⟩, db, []⟩
  | Except.ok v =>
    if db.users.any (fun u => u.id == v.userId) then
      match logActivity { db with requests := db.requests ++ [⟨nextRequestId db, v.userId, v.description, v.status⟩] }
          v.userId "CREATE" ("Created a new request with ID " ++ toString (nextRequestId db)) with
      | some db2 =>
        ⟨⟨201, some (requestToJson ⟨nextRequestId db, v.userId, v.description, v.status⟩)⟩, db2,
          [DbOp.createRequest (nextRequestId db) v.userId,
           DbOp.createLog v.userId "CREATE" ("Created a new request with ID " ++ toString (nextRequestId db))]⟩
      | none =>
        ⟨⟨500, some (errObj "Error creating request")⟩,
          { db with requests := db.requests ++ [⟨nextRequestId db, v.userId, v.description, v.status⟩] },
          [DbOp.createRequest (nextRequestId db) v.userId]⟩
    else ⟨⟨500, some (errObj "Error creating request")⟩, db, []⟩

/-- `PUT /requests?id=`: validate the body against the same `requestSchema`
(with `allowUnknown: true, abortEarly: false`; 400 joining all messages on
failure), then `prisma.request.update` at the parsed id (throws — 500 — when
the id is NaN, the row is missing, or the new userId breaks the foreign key),
then `logActivity(userId, 'UPDATE', ...)`; 200 with the updated row. -/
def PUT (db : DB) (idp : Option String) (b : ReqBody) : HResult :=
  match requestSchemaValidate b with
  | Except.error es => ⟨⟨400, some (errObj (joinComma es))⟩, db, []⟩
  | Except.ok v =>
    match parseIntJs idp with
    | none => ⟨⟨500, some (errObj "Error updating request")⟩, db, []⟩
    | some i =>
      match db.requests.find? (fun r => r.id == i) with
      | none => ⟨⟨500, some (errObj "Error updating request")⟩, db, []⟩
      | some _ =>
        if db.users.any (fun u => u.id == v.userId) then
          match logActivity { db with requests := db.requests.map (fun q => if q.id == i then ⟨i, v.userId, v.description, v.status⟩ else q) }
              v.userId "UPDATE" ("Updated request with ID " ++ toString i) with
          | some db2 =>
            ⟨⟨200, some (requestToJson ⟨i, v.userId, v.description, v.status⟩)⟩, db2,
              [DbOp.updateRequest i,
               DbOp.createLog v.userId "UPDATE" ("Updated request with ID " ++ toString i)]⟩
          | none =>
            ⟨⟨500, some (errObj "Error updating request")⟩,
              { db with requests := db.requests.map (fun q => if q.id == i then ⟨i, v.userId, v.description, v.status⟩ else q) },
              [DbOp.updateRequest i]⟩
        else ⟨⟨500, some (errObj "Error updating request")⟩, db, []⟩

/-- `DELETE /requests?id=`: `prisma.request.delete` at the parsed id (throws —
500 — when the id is NaN or the row is missing), then `logActivity(userId,
'DELETE', ...)`; on success the source returns `NextResponse.json({}, { status: 200 })`. -/
def DELETE (db : DB) (idp : Option String) : HResult :=
  match parseIntJs idp with
  | none => ⟨⟨500, some (errObj "Error deleting request")⟩, db, []⟩
  | some i =>
    match db.requests.find? (fun r => r.id == i) with
    | none => ⟨⟨500, some (errObj "Error deleting request")⟩, db, []⟩
    | some r =>
      match logActivity { db with requests := db.requests.filter (fun q => q.id != i) }
          r.userId "DELETE" ("Deleted request with ID " ++ toString r.id) with
      | some db2 =>
        ⟨⟨200, some (JVal.obj [])⟩, db2,
          [DbOp.deleteRequest i,
           DbOp.createLog r.userId "DELETE" ("Deleted request with ID " ++ toString r.id)]⟩
      | none =>
        ⟨⟨500, some (errObj "Error deleting request")⟩,
          { db with requests := db.requests.filter (fun q => q.id != i) },
          [DbOp.deleteRequest i]⟩

end RequestsRoute

/-! ## Stats route -/

namespace StatsRoute

/-- The five counts returned by `GET /requests/stats`. -/
structure Counts where
  total : Nat
  pending : Nat
  inProgress : Nat
  completed : Nat
  rejected : Nat
deriving DecidableEq

/-- The aggregate computed by the stats handler: length of the full table and
lengths of the four status filters, exactly as in the source. -/
def compute (requests : List RequestRow) : Counts :=
  { total := requests.length
  , pending := (requests.filter (fun r => r.status == "pending")).length
  , inProgress := (requests.filter (fun r => r.status == "in-progress")).length
  , completed := (requests.filter (fun r => r.status == "completed")).length
  , rejected := (requests.filter (fun r => r.status == "rejected")).length }

/-- `GET /requests/stats`: fetch all requests and return the five counts. -/
def GET (db : DB) : HttpResponse :=
  ⟨200, some (JVal.obj
    [("total", JVal.num ((compute db.requests).total : Int)),
     ("pending", JVal.num ((compute db.requests).pending : Int)),
     ("inProgress", JVal.num ((compute db.requests).inProgress : Int)),
     ("completed", JVal.num ((compute db.requests).completed : Int)),
     ("rejected", JVal.num ((compute db.requests).rejected : Int))])⟩

end StatsRoute

/-- The four status filters of the stats handler are pairwise exclusive, so
their counts sum to at most the table size, with equality when every row's
status is one of the four (helper for the C8 theorem). -/
lemma four_status_filter_lengths (t : List RequestRow) :
    ((t.filter (fun r => r.status == "pending")).length +
     (t.filter (fun r => r.status == "in-progress")).length +
     (t.filter (fun r => r.status == "completed")).length +
     (t.filter (fun r => r.status == "rejected")).length ≤ t.length) ∧
    ((∀ r ∈ t, r.status = "pending" ∨ r.status = "in-progress" ∨
        r.status = "completed" ∨ r.status = "rejected") →
     (t.filter (fun r => r.status == "pending")).length +
     (t.filter (fun r => r.status == "in-progress")).length +
     (t.filter (fun r => r.status == "completed")).length +
     (t.filter (fun r => r.status == "rejected")).length = t.length) := by
  induction t with
  | nil => simp
  | cons a t ih =>
    obtain ⟨ih1, ih2⟩ := ih
    have ihall : (∀ r ∈ a :: t, r.status = "pending" ∨ r.status = "in-progress" ∨
        r.status = "completed" ∨ r.status = "rejected") →
        (t.filter (fun r => r.status == "pending")).length +
        (t.filter (fun r => r.status == "in-progress")).length +
        (t.filter (fun r => r.status == "completed")).length +
        (t.filter (fun r => r.status == "rejected")).length = t.length :=
      fun hall => ih2 (fun r hr => hall r (List.mem_cons_of_mem _ hr))
    by_cases h1 : a.status = "pending"
    · refine ⟨by simp [List.filter_cons, h1]; omega, fun hall => ?_⟩
      have := ihall hall
      simp [List.filter_cons, h1]
      omega
    · by_cases h2 : a.status = "in-progress"
      · refine ⟨by simp [List.filter_cons, h2, h1]; omega, fun hall => ?_⟩
        have := ihall hall
        simp [List.filter_cons, h2, h1]
        omega
      · by_cases h3 : a.status = "completed"
        · refine ⟨by simp [List.filter_cons, h3, h1, h2]; omega, fun hall => ?_⟩
          have := ihall hall
          simp [List.filter_cons, h3, h1, h2]
          omega
        · by_cases h4 : a.status = "rejected"
          · refine ⟨by simp [List.filter_cons, h4, h1, h2, h3]; omega, fun hall => ?_⟩
            have := ihall hall
            simp [List.filter_cons, h4, h1, h2, h3]
            omega
          · refine ⟨by simp [List.filter_cons, h1, h2, h3, h4]; omega, fun hall => ?_⟩
            rcases hall a (List.mem_cons_self a t) with h | h | h | h
            · exact absurd h h1
            · exact absurd h h2
            · exact absurd h h3
            · exact absurd h h4

/-- C8: for every stats aggregate over the stored requests, the four status
counts sum to at most the total, with equality whenever every stored request's
status is one of the four known values. -/
theorem c8_stats_counts (rs : List RequestRow) :
    (StatsRoute.compute rs).pending + (StatsRoute.compute rs).inProgress +
      (StatsRoute.compute rs).completed + (StatsRoute.compute rs).rejected ≤
      (StatsRoute.compute rs).total ∧
    ((∀ r ∈ rs, r.status = "pending" ∨ r.status = "in-progress" ∨
        r.status = "completed" ∨ r.status = "rejected") →
      (StatsRoute.compute rs).pending + (StatsRoute.compute rs).inProgress +
        (StatsRoute.compute rs).completed + (StatsRoute.compute rs).rejected =
        (StatsRoute.compute rs).total) := by
  simpa [StatsRoute.compute] using four_status_filter_lengths rs

/-- `logActivity` succeeds and appends exactly one row when the userId
satisfies the ActivityLog→User foreign key. -/
lemma logActivity_of_any (db : DB) (uid : Int) (action description : String)
    (h : db.users.any (fun u => u.id == uid) = true) :
    logActivity db uid action description =
      some { db with logs := db.logs ++ [⟨uid, action, description⟩] } := by
  simp [logActivity, h]

/-- Concrete request table exercising all four statuses (C8 witness data). -/
def rs0 : List RequestRow :=
  [⟨1, 1, "first request ok", "pending"⟩,
   ⟨2, 1, "second request ok", "rejected"⟩,
   ⟨3, 1, "third request ok", "completed"⟩,
   ⟨4, 1, "fourth request ok", "in-progress"⟩]

/-- C8 witness: the theorem applied to a concrete table whose statuses are all
known, discharging the equality hypothesis. -/
theorem c8_stats_counts_witness :
    (StatsRoute.compute rs0).pending + (StatsRoute.compute rs0).inProgress +
      (StatsRoute.compute rs0).completed + (StatsRoute.compute rs0).rejected ≤
      (StatsRoute.compute rs0).total ∧
    (StatsRoute.compute rs0).pending + (StatsRoute.compute rs0).inProgress +
      (StatsRoute.compute rs0).completed + (StatsRoute.compute rs0).rejected =
      (StatsRoute.compute rs0).total :=
  ⟨(c8_stats_counts rs0).1, (c8_stats_counts rs0).2 (by decide)⟩

/-! ## Concrete fixtures -/

/-- The `"user"` role row. -/
def role0 : RoleRow := ⟨1, "user"⟩

/-- A stored user, password hashed. -/
def user1 : UserRow := ⟨1, "alice01", "a@b.com", bcryptHash "longpw123", 1⟩

/-- Database holding one role and one user. -/
def db1 : DB := ⟨[role0], [user1], [], [], []⟩

/-- Database holding one role, one user and one request owned by that user. -/
def dbR : DB := ⟨[role0], [user1], [], [⟨1, 1, "needs deleting soon", "pending"⟩], []⟩

/-- A request-creation payload whose status is `"rejected"` and whose other
fields are valid. -/
def b4 : ReqBody := ⟨some 1, some "a sufficiently long description", some "rejected"⟩

/-- C4: contrary to the claim, a request payload with status `"rejected"` (and
valid userId and description) is NOT accepted: `requestSchema` lists only
pending, in-progress and completed, so validation fails, `POST /requests`
answers 400 and no record is created. Evaluated at the failing input. -/
theorem c4_rejected_status_is_refused :
    requestSchemaValidate b4 = Except.error [statusMsg] ∧
    (RequestsRoute.POST db1 b4).resp.status = 400 ∧
    (RequestsRoute.POST db1 b4).db = db1 := by
  refine ⟨rfl, rfl, rfl⟩

/-- C10: `PUT /requests` validates the body against the very `requestSchema`
used for creation, so any update payload that omits `userId`, or omits a
description, or supplies one shorter than 10 characters, is answered 400 and
the database is left untouched — before any update occurs. -/
theorem c10_put_validates_like_creation (db : DB) (idp : Option String) (b : ReqBody)
    (h : b.userId = none ∨ b.description = none ∨
      ∃ d, b.description = some d ∧ d.length < 10) :
    (RequestsRoute.PUT db idp b).resp.status = 400 ∧ (RequestsRoute.PUT db idp b).db = db := by
  unfold RequestsRoute.PUT
  cases hv : requestSchemaValidate b with
  | error es => exact ⟨rfl, rfl⟩
  | ok v =>
    exfalso
    rcases h with h | h | ⟨d, hd, hlen⟩
    · simp [requestSchemaValidate, h] at hv
    · cases hu : b.userId <;> simp [requestSchemaValidate, hu, h] at hv
    · cases hu : b.userId <;> simp [requestSchemaValidate, hu, hd, hlen] at hv

/-- An update payload that only tries to change the status field. -/
def bStatusOnly : ReqBody := ⟨none, none, some "completed"⟩

/-- C10 witness: a status-only update payload is rejected with 400 and the
database is unchanged. -/
theorem c10_put_validates_like_creation_witness :
    bStatusOnly.userId = none ∧
    (RequestsRoute.PUT db1 (some "1") bStatusOnly).resp.status = 400 ∧
    (RequestsRoute.PUT db1 (some "1") bStatusOnly).db = db1 :=
  ⟨rfl, (c10_put_validates_like_creation db1 (some "1") bStatusOnly (Or.inl rfl)).1,
    (c10_put_validates_like_creation db1 (some "1") bStatusOnly (Or.inl rfl)).2⟩

/-! ## Audit ordering of the request mutations (helpers for C9) -/

/-- `POST /requests`: on 201 the trace is the creation followed by the log
entry referencing the new row's id and owner, and exactly that entry is
appended; on anything else the log table is untouched and the trace holds no
log write. -/
lemma requestsPOST_log_spec (db : DB) (b : ReqBody) :
    ((RequestsRoute.POST db b).resp.status = 201 →
      ∃ rid uid d st,
        (RequestsRoute.POST db b).db.requests = db.requests ++ [⟨rid, uid, d, st⟩] ∧
        (RequestsRoute.POST db b).trace =
          [DbOp.createRequest rid uid,
           DbOp.createLog uid "CREATE" ("Created a new request with ID " ++ toString rid)] ∧
        (RequestsRoute.POST db b).db.logs =
          db.logs ++ [⟨uid, "CREATE", "Created a new request with ID " ++ toString rid⟩]) ∧
    ((RequestsRoute.POST db b).resp.status ≠ 201 →
      (RequestsRoute.POST db b).db.logs = db.logs ∧
      (RequestsRoute.POST db b).trace.all (fun op => !op.isLog) = true) := by
  unfold RequestsRoute.POST
  split
  · exact ⟨fun h => by simp at h, fun _ => ⟨rfl, rfl⟩⟩
  · rename_i v hv
    split
    · rename_i hfk
      split
      · rename_i db2 heq
        simp only [logActivity] at heq
        split at heq
        · obtain rfl := Option.some.inj heq
          exact ⟨fun _ => ⟨nextRequestId db, v.userId, v.description, v.status, rfl, rfl, rfl⟩,
                 fun h => absurd rfl h⟩
        · rename_i hn
          exact absurd hfk hn
      · exact ⟨fun h => by simp at h, fun _ => ⟨rfl, rfl⟩⟩
    · exact ⟨fun h => by simp at h, fun _ => ⟨rfl, rfl⟩⟩

/-- `PUT /requests`: on 200 the trace is the update followed by the log entry
referencing the updated row's id and owner, and exactly that entry is
appended; on anything else the log table is untouched and the trace holds no
log write. -/
lemma requestsPUT_log_spec (db : DB) (idp : Option String) (b : ReqBody) :
    ((RequestsRoute.PUT db idp b).resp.status = 200 →
      ∃ i v, requestSchemaValidate b = Except.ok v ∧ parseIntJs idp = some i ∧
        (RequestsRoute.PUT db idp b).db.requests =
          db.requests.map (fun q => if q.id == i then ⟨i, v.userId, v.description, v.status⟩ else q) ∧
        (RequestsRoute.PUT db idp b).trace =
          [DbOp.updateRequest i,
           DbOp.createLog v.userId "UPDATE" ("Updated request with ID " ++ toString i)] ∧
        (RequestsRoute.PUT db idp b).db.logs =
          db.logs ++ [⟨v.userId, "UPDATE", "Updated request with ID " ++ toString i⟩]) ∧
    ((RequestsRoute.PUT db idp b).resp.status ≠ 200 →
      (RequestsRoute.PUT db idp b).db.logs = db.logs ∧
      (RequestsRoute.PUT db idp b).trace.all (fun op => !op.isLog) = true) := by
  unfold RequestsRoute.PUT
  split
  · exact ⟨fun h => by simp at h, fun _ => ⟨rfl, rfl⟩⟩
  · rename_i v hv
    split
    · exact ⟨fun h => by simp at h, fun _ => ⟨rfl, rfl⟩⟩
    · rename_i i hp
      split
      · exact ⟨fun h => by simp at h, fun _ => ⟨rfl, rfl⟩⟩
      · rename_i r hf
        split
        · rename_i hfk
          split
          · rename_i db2 heq
            simp only [logActivity] at heq
            split at heq
            · obtain rfl := Option.some.inj heq
              exact ⟨fun _ => ⟨i, v, hv, hp, rfl, rfl, rfl⟩, fun h => absurd rfl h⟩
            · rename_i hn
              exact absurd hfk hn
          · exact ⟨fun h => by simp at h, fun _ => ⟨rfl, rfl⟩⟩
        · exact ⟨fun h => by simp at h, fun _ => ⟨rfl, rfl⟩⟩

/-- `DELETE /requests`: on 200 the trace is the deletion followed by the log
entry referencing the deleted row's id and owner, and exactly that entry is
appended; on anything else the log table is untouched and the trace holds no
log write. -/
lemma requestsDELETE_log_spec (db : DB) (idp : Option String) :
    ((RequestsRoute.DELETE db idp).resp.status = 200 →
      ∃ i r, parseIntJs idp = some i ∧
        db.requests.find? (fun q => q.id == i) = some r ∧ r.id = i ∧
        (RequestsRoute.DELETE db idp).db.requests = db.requests.filter (fun q => q.id != i) ∧
        (RequestsRoute.DELETE db idp).trace =
          [DbOp.deleteRequest i,
           DbOp.createLog r.userId "DELETE" ("Deleted request with ID " ++ toString r.id)] ∧
        (RequestsRoute.DELETE db idp).db.logs =
          db.logs ++ [⟨r.userId, "DELETE", "Deleted request with ID " ++ toString r.id⟩]) ∧
    ((RequestsRoute.DELETE db idp).resp.status ≠ 200 →
      (RequestsRoute.DELETE db idp).db.logs = db.logs ∧
      (RequestsRoute.DELETE db idp).trace.all (fun op => !op.isLog) = true) := by
  unfold RequestsRoute.DELETE
  split
  · exact ⟨fun h => by simp at h, fun _ => ⟨rfl, rfl⟩⟩
  · rename_i i hp
    split
    · exact ⟨fun h => by simp at h, fun _ => ⟨rfl, rfl⟩⟩
    · rename_i r hf
      have hid : r.id = i := by simpa using List.find?_some hf
      split
      · rename_i db2 heq
        simp only [logActivity] at heq
        split at heq
        · obtain rfl := Option.some.inj heq
          exact ⟨fun _ => ⟨i, r, hp, hf, hid, rfl, rfl, rfl⟩, fun h => absurd rfl h⟩
        · exact absurd heq (by simp)
      · exact ⟨fun h => by simp at h, fun _ => ⟨rfl, rfl⟩⟩

/-- C9: for every request mutation (create, update, delete), the activity-log
write happens only after the underlying mutation has succeeded — on success
the trace is exactly the mutation followed by the log insertion referencing
the mutated request's identifier and owning user, and exactly that entry is
appended to the log table; when the handler does not report success, the log
table is unchanged and the trace holds no log write. -/
theorem c9_log_only_after_mutation (db : DB) (b : ReqBody) (idp : Option String) :
    ((RequestsRoute.POST db b).resp.status = 201 →
      ∃ rid uid d st,
        (RequestsRoute.POST db b).db.requests = db.requests ++ [⟨rid, uid, d, st⟩] ∧
        (RequestsRoute.POST db b).trace =
          [DbOp.createRequest rid uid,
           DbOp.createLog uid "CREATE" ("Created a new request with ID " ++ toString rid)] ∧
        (RequestsRoute.POST db b).db.logs =
          db.logs ++ [⟨uid, "CREATE", "Created a new request with ID " ++ toString rid⟩]) ∧
    ((RequestsRoute.POST db b).resp.status ≠ 201 →
      (RequestsRoute.POST db b).db.logs = db.logs ∧
      (RequestsRoute.POST db b).trace.all (fun op => !op.isLog) = true) ∧
    ((RequestsRoute.PUT db idp b).resp.status = 200 →
      ∃ i v, requestSchemaValidate b = Except.ok v ∧ parseIntJs idp = some i ∧
        (RequestsRoute.PUT db idp b).db.requests =
          db.requests.map (fun q => if q.id == i then ⟨i, v.userId, v.description, v.status⟩ else q) ∧
        (RequestsRoute.PUT db idp b).trace =
          [DbOp.updateRequest i,
           DbOp.createLog v.userId "UPDATE" ("Updated request with ID " ++ toString i)] ∧
        (RequestsRoute.PUT db idp b).db.logs =
          db.logs ++ [⟨v.userId, "UPDATE", "Updated request with ID " ++ toString i⟩]) ∧
    ((RequestsRoute.PUT db idp b).resp.status ≠ 200 →
      (RequestsRoute.PUT db idp b).db.logs = db.logs ∧
      (RequestsRoute.PUT db idp b).trace.all (fun op => !op.isLog) = true) ∧
    ((RequestsRoute.DELETE db idp).resp.status = 200 →
      ∃ i r, parseIntJs idp = some i ∧
        db.requests.find? (fun q => q.id == i) = some r ∧ r.id = i ∧
        (RequestsRoute.DELETE db idp).db.requests = db.requests.filter (fun q => q.id != i) ∧
        (RequestsRoute.DELETE db idp).trace =
          [DbOp.deleteRequest i,
           DbOp.createLog r.userId "DELETE" ("Deleted request with ID " ++ toString r.id)] ∧
        (RequestsRoute.DELETE db idp).db.logs =
          db.logs ++ [⟨r.userId, "DELETE", "Deleted request with ID " ++ toString r.id⟩]) ∧
    ((RequestsRoute.DELETE db idp).resp.status ≠ 200 →
      (RequestsRoute.DELETE db idp).db.logs = db.logs ∧
      (RequestsRoute.DELETE db idp).trace.all (fun op => !op.isLog) = true) :=
  ⟨(requestsPOST_log_spec db b).1, (requestsPOST_log_spec db b).2,
   (requestsPUT_log_spec db idp b).1, (requestsPUT_log_spec db idp b).2,
   (requestsDELETE_log_spec db idp).1, (requestsDELETE_log_spec db idp).2⟩

/-- A valid request-creation payload owned by the stored user. -/
def bOk : ReqBody := ⟨some 1, some "another long description", none⟩

/-- C9 witness: at a concrete database and valid creation payload the POST
succeeds, and the theorem yields the creation-then-log trace; at the same
database the DELETE of the stored request succeeds and yields the
deletion-then-log trace. -/
theorem c9_log_only_after_mutation_witness :
    (∃ rid uid d st,
      (RequestsRoute.POST dbR bOk).db.requests = dbR.requests ++ [⟨rid, uid, d, st⟩] ∧
      (RequestsRoute.POST dbR bOk).trace =
        [DbOp.createRequest rid uid,
         DbOp.createLog uid "CREATE" ("Created a new request with ID " ++ toString rid)] ∧
      (RequestsRoute.POST dbR bOk).db.logs =
        dbR.logs ++ [⟨uid, "CREATE", "Created a new request with ID " ++ toString rid⟩]) ∧
    (∃ i r, parseIntJs (some "1") = some i ∧
      dbR.requests.find? (fun q => q.id == i) = some r ∧ r.id = i ∧
      (RequestsRoute.DELETE dbR (some "1")).db.requests =
        dbR.requests.filter (fun q => q.id != i) ∧
      (RequestsRoute.DELETE dbR (some "1")).trace =
        [DbOp.deleteRequest i,
         DbOp.createLog r.userId "DELETE" ("Deleted request with ID " ++ toString r.id)] ∧
      (RequestsRoute.DELETE dbR (some "1")).db.logs =
        dbR.logs ++ [⟨r.userId, "DELETE", "Deleted request with ID " ++ toString r.id⟩]) :=
  ⟨(c9_log_only_after_mutation dbR bOk (some "1")).1 rfl,
   (c9_log_only_after_mutation dbR bOk (some "1")).2.2.2.2.1 rfl⟩

/-! ## Users collection route (query-parameter id): schemas and handlers -/

/-- A parsed body for user creation: the eight fields `userSchema` knows
about, each possibly absent. -/
structure CreateUserBody where
  username : Option String
  email : Option String
  password : Option String
  role : Option String
  firstName : Option String
  lastName : Option String
  phone : Option String
  address : Option String
deriving DecidableEq

/-- A parsed body for user update: the seven fields `updateUserSchema` (users
collection route) knows about, each possibly absent. -/
structure UpdateBody where
  username : Option String
  email : Option String
  password : Option String
  firstName : Option String
  lastName : Option String
  phone : Option String
  address : Option String
deriving DecidableEq

/-- The `valid(...)` list of `userSchema`'s role field. -/
def roleValues : List String := ["user", "admin"]

/-- Models `userSchema.validate(body)` of the users collection route: all of
username, email, password, role required and checked; the four profile fields
optional nonempty strings. Returns the list of violation messages. -/
def userSchemaErrors (b : CreateUserBody) : List String :=
  (match b.username with
   | none => ["username is required"]
   | some u => if usernameOk u then [] else ["username must be alphanumeric and 3 to 30 characters"]) ++
  (match b.email with
   | none => ["email is required"]
   | some e => if emailOk e then [] else ["email must be a valid email"]) ++
  (match b.password with
   | none => ["password is required"]
   | some p => if p.length < 8 then ["password length must be at least 8 characters"] else []) ++
  (match b.role with
   | none => ["role is required"]
   | some r => if roleValues.contains r then [] else ["role must be one of user, admin"]) ++
  (match b.firstName with | some "" => ["firstName is not allowed to be empty"] | _ => []) ++
  (match b.lastName with | some "" => ["lastName is not allowed to be empty"] | _ => []) ++
  (match b.phone with | some "" => ["phone is not allowed to be empty"] | _ => []) ++
  (match b.address with | some "" => ["address is not allowed to be empty"] | _ => [])

namespace UsersRoute

/-- Models `updateUserSchema.validate(body, { allowUnknown: true, abortEarly:
false })` of the users collection route: every field optional, each present
field fully validated. -/
def updateUserSchemaErrors (b : UpdateBody) : List String :=
  (match b.username with
   | none => []
   | some u => if usernameOk u then [] else ["username must be alphanumeric and 3 to 30 characters"]) ++
  (match b.email with
   | none => []
   | some e => if emailOk e then [] else ["email must be a valid email"]) ++
  (match b.password with
   | none => []
   | some p => if p.length < 8 then ["password length must be at least 8 characters"] else []) ++
  (match b.firstName with | some "" => ["firstName is not allowed to be empty"] | _ => []) ++
  (match b.lastName with | some "" => ["lastName is not allowed to be empty"] | _ => []) ++
  (match b.phone with | some "" => ["phone is not allowed to be empty"] | _ => []) ++
  (match b.address with | some "" => ["address is not allowed to be empty"] | _ => [])

/-- JSON rendering of a User row's scalar fields, as Prisma returns them from
`create`/`update` and `NextResponse.json` serialises them — the password
(hash) field included. -/
def userToJson (u : UserRow) : JVal :=
  JVal.obj [("id", JVal.num u.id), ("username", JVal.str u.username),
            ("email", JVal.str u.email), ("password", JVal.str u.password),
            ("roleId", JVal.num u.roleId)]

/-- JSON rendering of a UserProfile row. -/
def profileToJson (p : UserProfileRow) : JVal :=
  JVal.obj [("userId", JVal.num p.userId),
            ("firstName", match p.firstName with | some v => JVal.str v | none => JVal.null),
            ("lastName", match p.lastName with | some v => JVal.str v | none => JVal.null),
            ("phone", match p.phone with | some v => JVal.str v | none => JVal.null),
            ("address", match p.address with | some v => JVal.str v | none => JVal.null)]

/-- JSON rendering of a Role row. -/
def roleToJson (r : RoleRow) : JVal :=
  JVal.obj [("id", JVal.num r.id), ("name", JVal.str r.name)]

/-- JSON rendering of a User row with its role and profile attached
(`include: { role: true, profile: true }`). -/
def userToJsonFull (db : DB) (u : UserRow) : JVal :=
  JVal.obj [("id", JVal.num u.id), ("username", JVal.str u.username),
            ("email", JVal.str u.email), ("password", JVal.str u.password),
            ("roleId", JVal.num u.roleId),
            ("role", match db.roles.find? (fun r => r.id == u.roleId) with
                     | some r => roleToJson r | none => JVal.null),
            ("profile", match db.profiles.find? (fun p => p.userId == u.id) with
                        | some p => profileToJson p | none => JVal.null)]

/-- The all-users branch of `GET /users` (no or empty id). -/
def GETall (db : DB) : HttpResponse :=
  ⟨200, some (JVal.arr (db.users.map (userToJsonFull db)))⟩

/-- `GET /users` (optionally `?id=`): with a nonempty id, find the user with
role and profile attached — 404 if absent, 500 if the id does not parse
(Prisma throws on a NaN key); without an id, list every user with role and
profile attached. -/
def GET (db : DB) (idp : Option String) : HttpResponse :=
  match idp with
  | none => GETall db
  | some s =>
    if s == "" then GETall db
    else
      match parseIntJs (some s) with
      | none => ⟨500, some (errObj "Error fetching user(s)")⟩
      | some i =>
        match db.users.find? (fun u => u.id == i) with
        | none => ⟨404, some (errObj "User not found")⟩
        | some u => ⟨200, some (userToJsonFull db u)⟩

/-- `POST /users`: validate with `userSchema` (400 with the first message),
hash the password, resolve the role name (400 `Role not found` if absent),
create the user plus nested profile (the optional profile fields defaulted to
the empty string); a unique-constraint violation on username or email is
caught and answered 400; 201 with the created user row (password hash
included) on success. -/
def POST (db : DB) (b : CreateUserBody) : HttpResponse × DB :=
  match userSchemaErrors b with
  | e :: _ => (⟨400, some (errObj e)⟩, db)
  | [] =>
    match b.username, b.email, b.password, b.role with
    | some username, some email, some password, some role =>
      match db.roles.find? (fun r => r.name == role) with
      | none => (⟨400, some (errObj "Role not found")⟩, db)
      | some roleData =>
        if db.users.any (fun u => u.username == username || u.email == email) then
          (⟨400, some (errObj "Username or email already exists")⟩, db)
        else
          (⟨201, some (userToJson ⟨nextUserId db, username, email, bcryptHash password, roleData.id⟩)⟩,
           { db with
             users := db.users ++ [⟨nextUserId db, username, email, bcryptHash password, roleData.id⟩],
             profiles := db.profiles ++
               [⟨nextUserId db, some (b.firstName.getD ""), some (b.lastName.getD ""),
                 some (b.phone.getD ""), some (b.address.getD "")⟩] })
    | _, _, _, _ => (⟨500, some (errObj "Error creating user")⟩, db)

/-- The scalar update `updateData` of the users collection PUT: set username
and email when supplied, re-hash and set the password only when supplied. -/
def applyUserUpdate (u : UserRow) (b : UpdateBody) : UserRow :=
  { u with
    username := match b.username with | some v => v | none => u.username,
    email := match b.email with | some v => v | none => u.email,
    password := match b.password with | some v => bcryptHash v | none => u.password }

/-- Does the body carry any of the four profile fields? -/
def hasProfileField (b : UpdateBody) : Bool :=
  b.firstName.isSome || b.lastName.isSome || b.phone.isSome || b.address.isSome

/-- `prisma.userProfile.upsert` keyed by the user id: update the existing
profile (absent fields left unchanged — Prisma treats `undefined` as no
change) or create one with exactly the supplied fields. -/
def upsertProfile (db : DB) (userId : Int) (b : UpdateBody) : DB :=
  match db.profiles.find? (fun p => p.userId == userId) with
  | some p =>
    { db with profiles := db.profiles.map (fun q =>
        if q.userId == userId then
          ⟨p.userId,
           (match b.firstName with | some v => some v | none => p.firstName),
           (match b.lastName with | some v => some v | none => p.lastName),
           (match b.phone with | some v => some v | none => p.phone),
           (match b.address with | some v => some v | none => p.address)⟩
        else q) }
  | none =>
    { db with profiles := db.profiles ++ [⟨userId, b.firstName, b.lastName, b.phone, b.address⟩] }

/-- `PUT /users?id=`: 400 when the id is missing or not numeric; validate the
partial payload (400 joining all messages); update the user's scalar fields
(500 when the user is missing or the new username/email collides with another
user's); then upsert the profile when any profile field was supplied; 200 with
the updated user row. -/
def PUT (db : DB) (idp : Option String) (b : UpdateBody) : HttpResponse × DB :=
  match idp with
  | none => (⟨400, some (errObj "User ID not provided")⟩, db)
  | some s =>
    match parseIntJs (some s) with
    | none => (⟨400, some (errObj "Invalid user id")⟩, db)
    | some userId =>
      match updateUserSchemaErrors b with
      | e :: es => (⟨400, some (errObj (joinComma (e :: es)))⟩, db)
      | [] =>
        match db.users.find? (fun w => w.id == userId) with
        | none => (⟨500, some (errObj "Error updating user")⟩, db)
        | some u =>
          if db.users.any (fun w => w.id != userId &&
              (w.username == (applyUserUpdate u b).username ||
               w.email == (applyUserUpdate u b).email)) then
            (⟨500, some (errObj "Error updating user")⟩, db)
          else
            if hasProfileField b then
              (⟨200, some (userToJson (applyUserUpdate u b))⟩,
               upsertProfile { db with users := db.users.map (fun w =>
                 if w.id == userId then applyUserUpdate u b else w) } userId b)
            else
              (⟨200, some (userToJson (applyUserUpdate u b))⟩,
               { db with users := db.users.map (fun w =>
                 if w.id == userId then applyUserUpdate u b else w) })

/-- Tail of the users collection DELETE after the optional profile deletion:
delete every request of the user, then `prisma.user.delete` — which throws
(500) when the user row is missing or an ActivityLog row still references it;
204 with empty body on success. -/
def finishDelete (db : DB) (userId : Int) (tr : List DbOp) : HResult :=
  match (({ db with requests := db.requests.filter (fun r => r.userId != userId) } : DB)).users.find?
      (fun u => u.id == userId) with
  | none =>
    ⟨⟨500, some (errObj "Error deleting user")⟩,
     { db with requests := db.requests.filter (fun r => r.userId != userId) },
     tr ++ [DbOp.deleteRequestsOf userId]⟩
  | some _ =>
    if db.logs.any (fun l => l.userId == userId) then
      ⟨⟨500, some (errObj "Error deleting user")⟩,
       { db with requests := db.requests.filter (fun r => r.userId != userId) },
       tr ++ [DbOp.deleteRequestsOf userId]⟩
    else
      ⟨⟨204, none⟩,
       { db with
         requests := db.requests.filter (fun r => r.userId != userId),
         users := db.users.filter (fun u => u.id != userId) },
       tr ++ [DbOp.deleteRequestsOf userId, DbOp.deleteUser userId]⟩

/-- `DELETE /users?id=`: 400 when the id is missing or not numeric; look up
the user's profile and delete it when present; delete all the user's
requests; then delete the user row; `new NextResponse(null, { status: 204 })`
on success. -/
def DELETE (db : DB) (idp : Option String) : HResult :=
  match idp with
  | none => ⟨⟨400, some (errObj "User ID not provided")⟩, db, []⟩
  | some s =>
    match parseIntJs (some s) with
    | none => ⟨⟨400, some (errObj "Invalid user id")⟩, db, []⟩
    | some userId =>
      match db.profiles.find? (fun p => p.userId == userId) with
      | some _ =>
        finishDelete { db with profiles := db.profiles.filter (fun p => p.userId != userId) }
          userId [DbOp.deleteProfile userId]
      | none => finishDelete db userId []

end UsersRoute

/-! ## User item route (path-segment id), the second user handler file -/

namespace UserItemRoute

/-- Models the `updateUserSchema` of the user item route file: username, email
and password are ALL REQUIRED there (`.required()` on each); the profile
fields are unknown keys (allowed by `allowUnknown: true` but never used). -/
def updateUserSchemaErrors (b : UpdateBody) : List String :=
  (match b.username with
   | none => ["username is required"]
   | some u => if usernameOk u then [] else ["username must be alphanumeric and 3 to 30 characters"]) ++
  (match b.email with
   | none => ["email is required"]
   | some e => if emailOk e then [] else ["email must be a valid email"]) ++
  (match b.password with
   | none => ["password is required"]
   | some p => if p.length < 8 then ["password length must be at least 8 characters"] else [])

/-- `GET /users/[id]` of the user item route: find the user (role attached) —
404 if absent, 500 when the path segment does not parse. -/
def GET (db : DB) (idStr : String) : HttpResponse :=
  match parseIntJs (some idStr) with
  | none => ⟨500, some (errObj "Error fetching user")⟩
  | some i =>
    match db.users.find? (fun u => u.id == i) with
    | none => ⟨404, some (errObj "User not found")⟩
    | some u => ⟨200, some (UsersRoute.userToJsonFull db u)⟩

/-- `PUT /users/[id]` of the user item route: validate with its all-required
`updateUserSchema` (400 joining all messages); always re-hash the (required)
password; update username, email and password (500 when the id does not
parse, the user is missing, or username/email collides with another user);
200 with the updated row. The profile is never touched. -/
def PUT (db : DB) (idStr : String) (b : UpdateBody) : HttpResponse × DB :=
  match updateUserSchemaErrors b with
  | e :: es => (⟨400, some (errObj (joinComma (e :: es)))⟩, db)
  | [] =>
    match b.username, b.password, b.email with
    | some username, some password, some email =>
      match parseIntJs (some idStr) with
      | none => (⟨500, some (errObj "Error updating user")⟩, db)
      | some i =>
        match db.users.find? (fun u => u.id == i) with
        | none => (⟨500, some (errObj "Error updating user")⟩, db)
        | some u =>
          if db.users.any (fun w => w.id != i && (w.username == username || w.email == email)) then
            (⟨500, some (errObj "Error updating user")⟩, db)
          else
            (⟨200, some (UsersRoute.userToJson ⟨u.id, username, email, bcryptHash password, u.roleId⟩)⟩,
             { db with users := db.users.map (fun w =>
               if w.id == i then ⟨u.id, username, email, bcryptHash password, u.roleId⟩ else w) })
    | _, _, _ => (⟨500, some (errObj "Error updating user")⟩, db)

/-- `DELETE /users/[id]` of the user item route: `prisma.user.delete` directly
— no dependent rows are removed first, so the delete throws (500, database
unchanged) whenever a UserProfile, Request or ActivityLog row still references
the user; on success `NextResponse.json(null, { status: 204 })`. -/
def DELETE (db : DB) (idStr : String) : HttpResponse × DB :=
  match parseIntJs (some idStr) with
  | none => (⟨500, some (errObj "Error deleting user")⟩, db)
  | some i =>
    match db.users.find? (fun u => u.id == i) with
    | none => (⟨500, some (errObj "Error deleting user")⟩, db)
    | some _ =>
      if db.profiles.any (fun p => p.userId == i) || db.requests.any (fun r => r.userId == i) ||
          db.logs.any (fun l => l.userId == i) then
        (⟨500, some (errObj "Error deleting user")⟩, db)
      else
        (⟨204, some JVal.null⟩, { db with users := db.users.filter (fun u => u.id != i) })

end UserItemRoute

/-! ## Mail relay route -/

namespace MailRoute

/-- The parsed body of the mail relay: the `to`, `subject` and `text` fields
(the recipient field is named `toAddr` here because `to` is reserved). -/
structure MailInput where
  toAddr : Option String
  subject : Option String
  text : Option String
deriving DecidableEq

/-- JS truthiness of an optional string field (`!to` is true for a missing or
empty field). -/
def present : Option String → Bool
  | none => false
  | some s => s != ""

/-- `POST /mail`: 400 when recipient, subject or text is missing or empty;
otherwise submit through the transport (`transporter.sendMail`, modelled by
its outcome `sendResult`); 200 with the acceptance info on success; on a
transport failure, 500 with the generic Spanish failure message AND a
`details` field holding the underlying error's message. -/
def POST (m : MailInput) (sendResult : Except String JVal) : HttpResponse :=
  if present m.toAddr && present m.subject && present m.text then
    match sendResult with
    | Except.ok info =>
      ⟨200, some (JVal.obj [("message", JVal.str "Correo enviado con exito"), ("info", info)])⟩
    | Except.error e =>
      ⟨500, some (JVal.obj [("error", JVal.str "Error al enviar el correo"),
                            ("details", JVal.str e)])⟩
  else ⟨400, some (errObj "Missing email, subject, or text")⟩

end MailRoute

/-! ## Helper lemmas for the user and mail claims -/

/-- A field of a response's JSON body. -/
def bodyField (r : HttpResponse) (k : String) : Option JVal :=
  match r.body with
  | some j => jlookup j k
  | none => none

/-- The bcrypt digest is never the plaintext. -/
lemma bcryptHash_ne (p : String) : bcryptHash p ≠ p := by
  intro h
  have hlen := congrArg String.length h
  simp [bcryptHash, String.length_append] at hlen
  exact absurd hlen (by decide)

/-- Every element surviving a filter satisfies the filter's predicate. -/
lemma all_filter_self {α : Type} (p : α → Bool) (l : List α) : (l.filter p).all p = true := by
  rw [List.all_eq_true]
  intro a ha
  exact (List.mem_filter.mp ha).2

/-- Replacing the elements a predicate selects by a value that itself
satisfies the predicate makes `find?` return that value, provided a match
existed. -/
lemma find?_map_replace {α : Type} (p : α → Bool) (v w : α) (l : List α)
    (hv : p v = true) (hw : l.find? p = some w) :
    (l.map (fun x => if p x then v else x)).find? p = some v := by
  induction l with
  | nil => simp at hw
  | cons a t ih =>
    cases ha : p a with
    | true => simp [List.find?, ha, hv]
    | false =>
      simp [List.find?, ha, -List.find?_map] at hw ⊢
      exact ih hw

/-- C5 counterexample: at a concrete transport failure the handler's 500
response carries a `details` field holding the transport error's message, so
the failure detail IS returned to the caller, contrary to the claim. -/
theorem c5_counterexample :
    (MailRoute.POST ⟨some "a@b.com", some "hello", some "body text"⟩
      (Except.error "connect ECONNREFUSED")).status = 500 ∧
    (MailRoute.POST ⟨some "a@b.com", some "hello", some "body text"⟩
      (Except.error "connect ECONNREFUSED")).body =
      some (JVal.obj [("error", JVal.str "Error al enviar el correo"),
                      ("details", JVal.str "connect ECONNREFUSED")]) :=
  ⟨rfl, rfl⟩

/-- C5 (amended): for every mail-relay invocation whose fields are present and
whose transport fails, the handler returns 500 with a generic failure message
PLUS a `details` field carrying the underlying error's message verbatim. -/
theorem c5_mail_error_response (m : MailRoute.MailInput) (e : String)
    (h : (MailRoute.present m.toAddr && MailRoute.present m.subject &&
          MailRoute.present m.text) = true) :
    (MailRoute.POST m (Except.error e)).status = 500 ∧
    (MailRoute.POST m (Except.error e)).body =
      some (JVal.obj [("error", JVal.str "Error al enviar el correo"),
                      ("details", JVal.str e)]) := by
  unfold MailRoute.POST
  rw [if_pos h]
  exact ⟨rfl, rfl⟩

/-- C5 witness: the amended theorem at a concrete input. -/
theorem c5_mail_error_response_witness :
    (MailRoute.POST ⟨some "ops@b.com", some "alert", some "disk full"⟩
      (Except.error "ETIMEDOUT")).status = 500 ∧
    (MailRoute.POST ⟨some "ops@b.com", some "alert", some "disk full"⟩
      (Except.error "ETIMEDOUT")).body =
      some (JVal.obj [("error", JVal.str "Error al enviar el correo"),
                      ("details", JVal.str "ETIMEDOUT")]) :=
  c5_mail_error_response ⟨some "ops@b.com", some "alert", some "disk full"⟩ "ETIMEDOUT" rfl

/-- C7 counterexample: a successful request deletion answers 200 with an empty
JSON object body — not 204 with no body as claimed (the row IS deleted). -/
theorem c7_counterexample :
    (RequestsRoute.DELETE dbR (some "1")).resp.status = 200 ∧
    (RequestsRoute.DELETE dbR (some "1")).resp.status ≠ 204 ∧
    (RequestsRoute.DELETE dbR (some "1")).db.requests = [] ∧
    (RequestsRoute.DELETE dbR (some "1")).resp.body = some (JVal.obj []) :=
  ⟨rfl, by decide, rfl, rfl⟩

/-! ## C6: the password (hash) field in user responses -/

/-- Database holding only the `"user"` role. -/
def db0 : DB := ⟨[role0], [], [], [], []⟩

/-- The spec's concrete user-creation payload. -/
def alice : CreateUserBody :=
  ⟨some "alice01", some "a@b.com", some "longpw123", some "user", none, none, none, none⟩

/-- C6 counterexample: creating alice succeeds (201) but the response body —
and the body of the subsequent GET — DO contain a `password` field, holding
the stored bcrypt hash (not the plaintext). -/
theorem c6_counterexample :
    (UsersRoute.POST db0 alice).1.status = 201 ∧
    bodyField (UsersRoute.POST db0 alice).1 "password" =
      some (JVal.str (bcryptHash "longpw123")) ∧
    bodyField (UsersRoute.GET (UsersRoute.POST db0 alice).2 (some "1")) "password" =
      some (JVal.str (bcryptHash "longpw123")) ∧
    bcryptHash "longpw123" ≠ "longpw123" :=
  ⟨rfl, rfl, rfl, by decide⟩

/-- C6 (amended): every successful user creation returns the stored password
hash — not the plaintext — under a `password` key, and every GET of a stored
user returns the stored `password` field likewise. -/
theorem c6_password_hash_returned (db : DB) (b : CreateUserBody)
    (s : String) (i : Int) (u : UserRow)
    (hns : (s == "") = false)
    (hp : parseIntJs (some s) = some i)
    (hu : db.users.find? (fun w => w.id == i) = some u) :
    ((UsersRoute.POST db b).1.status = 201 →
      ∃ pw, b.password = some pw ∧
        bodyField (UsersRoute.POST db b).1 "password" = some (JVal.str (bcryptHash pw)) ∧
        bcryptHash pw ≠ pw) ∧
    bodyField (UsersRoute.GET db (some s)) "password" = some (JVal.str u.password) := by
  constructor
  · unfold UsersRoute.POST
    split
    · exact fun h => by simp at h
    · split
      · rename_i username email password role hus hem hpw hrl
        split
        · exact fun h => by simp at h
        · split
          · exact fun h => by simp at h
          · exact fun _ => ⟨password, hpw, rfl, bcryptHash_ne password⟩
      · exact fun h => by simp at h
  · unfold UsersRoute.GET
    simp only [hp, hu, hns, Bool.false_eq_true, if_false]
    rfl

/-- A second valid user-creation payload, distinct from the stored user. -/
def bob : CreateUserBody :=
  ⟨some "bob02", some "b@c.com", some "longpw456", some "user", none, none, none, none⟩

/-- C6 witness: the amended theorem at a concrete database — creating bob
returns his password hash under the `password` key, and GET of the stored
user returns her stored hash. -/
theorem c6_password_hash_returned_witness :
    (∃ pw, bob.password = some pw ∧
      bodyField (UsersRoute.POST db1 bob).1 "password" = some (JVal.str (bcryptHash pw)) ∧
      bcryptHash pw ≠ pw) ∧
    bodyField (UsersRoute.GET db1 (some "1")) "password" = some (JVal.str user1.password) :=
  ⟨(c6_password_hash_returned db1 bob "1" 1 user1 rfl rfl rfl).1 rfl,
   (c6_password_hash_returned db1 bob "1" 1 user1 rfl rfl rfl).2⟩

/-! ## C2: user deletion and its dependency cascade -/

/-- Database with one user owning a profile and two requests. -/
def dbC2 : DB :=
  ⟨[role0], [user1],
   [⟨1, some "Alice", some "Smith", some "555-0000", some "1 Main St"⟩],
   [⟨1, 1, "first request row", "pending"⟩, ⟨2, 1, "second request row", "pending"⟩],
   []⟩

/-- C2 counterexample: the path-segment user DELETE handler (the second user
handler file) deletes NO dependent rows — on a user with a profile and two
requests the bare `prisma.user.delete` hits the foreign keys, the handler
answers 500 and the database is completely unchanged (profile, requests and
user all still present), contradicting the claimed cascade. -/
theorem c2_counterexample :
    (UserItemRoute.DELETE dbC2 "1").1.status = 500 ∧
    (UserItemRoute.DELETE dbC2 "1").2 = dbC2 ∧
    (UserItemRoute.DELETE dbC2 "1").2.profiles ≠ [] ∧
    (UserItemRoute.DELETE dbC2 "1").2.users = [user1] :=
  ⟨rfl, rfl, by decide, rfl⟩

/-- C2 (amended): the query-parameter user DELETE handler (users collection
route) does cascade: whenever it answers 204 the trace is the profile
deletion (when a profile existed), then the deletion of the user's requests,
then the user row — in that order — and afterwards no profile, request or
user row for that id remains. -/
theorem c2_delete_cascade_order (db : DB) (s : String) (userId : Int)
    (hp : parseIntJs (some s) = some userId)
    (h204 : (UsersRoute.DELETE db (some s)).resp.status = 204) :
    (UsersRoute.DELETE db (some s)).trace =
      (if (db.profiles.find? (fun p => p.userId == userId)).isSome
       then [DbOp.deleteProfile userId] else []) ++
      [DbOp.deleteRequestsOf userId, DbOp.deleteUser userId] ∧
    (UsersRoute.DELETE db (some s)).db.profiles.all (fun p => p.userId != userId) = true ∧
    (UsersRoute.DELETE db (some s)).db.requests.all (fun r => r.userId != userId) = true ∧
    (UsersRoute.DELETE db (some s)).db.users.all (fun u => u.id != userId) = true := by
  unfold UsersRoute.DELETE UsersRoute.finishDelete at h204 ⊢
  simp only [hp] at h204 ⊢
  cases hprof : db.profiles.find? (fun p => p.userId == userId) with
  | some p =>
    simp only [hprof, Option.isSome_some, if_true] at h204 ⊢
    cases husr : db.users.find? (fun u => u.id == userId) with
    | none => simp only [husr] at h204; simp at h204
    | some u =>
      simp only [husr] at h204 ⊢
      by_cases hlog : db.logs.any (fun l => l.userId == userId) = true
      · rw [if_pos hlog] at h204; simp at h204
      · rw [if_neg hlog] at h204 ⊢
        exact ⟨rfl, all_filter_self _ _, all_filter_self _ _, all_filter_self _ _⟩
  | none =>
    simp only [hprof, Option.isSome_none, if_false] at h204 ⊢
    cases husr : db.users.find? (fun u => u.id == userId) with
    | none => simp only [husr] at h204; simp at h204
    | some u =>
      simp only [husr] at h204 ⊢
      by_cases hlog : db.logs.any (fun l => l.userId == userId) = true
      · rw [if_pos hlog] at h204; simp at h204
      · rw [if_neg hlog] at h204 ⊢
        refine ⟨rfl, ?_, all_filter_self _ _, all_filter_self _ _⟩
        rw [List.all_eq_true]
        intro a ha
        have hne := List.find?_eq_none.mp hprof a ha
        simpa using hne

/-- C2 witness: deleting the user with a profile and two requests through the
users collection handler answers 204, traces profile → requests → user in
that order, and empties all three tables. -/
theorem c2_delete_cascade_order_witness :
    (UsersRoute.DELETE dbC2 (some "1")).resp.status = 204 ∧
    (UsersRoute.DELETE dbC2 (some "1")).trace =
      [DbOp.deleteProfile 1, DbOp.deleteRequestsOf 1, DbOp.deleteUser 1] ∧
    (UsersRoute.DELETE dbC2 (some "1")).db.profiles = [] ∧
    (UsersRoute.DELETE dbC2 (some "1")).db.requests = [] ∧
    (UsersRoute.DELETE dbC2 (some "1")).db.users = [] := by
  have h := c2_delete_cascade_order dbC2 "1" 1 rfl rfl
  exact ⟨rfl, h.1, by decide, by decide, by decide⟩

/-! ## C3: user update, partial payloads and the profile upsert -/

/-- An update payload carrying only a profile field (a phone number). -/
def phoneOnly : UpdateBody := ⟨none, none, none, none, none, some "555-1234", none⟩

/-- C3 counterexample: the path-segment user PUT handler (the second user
handler file) validates with an all-REQUIRED schema, so a payload containing
only profile fields is rejected with 400 and nothing is updated —
contradicting the claim that such a payload is accepted. -/
theorem c3_counterexample :
    (UserItemRoute.PUT db1 "1" phoneOnly).1.status = 400 ∧
    (UserItemRoute.PUT db1 "1" phoneOnly).2 = db1 :=
  ⟨rfl, rfl⟩

/-- C3 (amended): for the users collection PUT handler the claim holds: the
payload is validated with every field optional, and for a valid payload on an
existing user (no unique-constraint collision) the handler answers 200, the
stored user becomes exactly the scalar update — whose password is re-hashed
when supplied and untouched otherwise — and, when any profile field was
supplied, the profile is upserted keyed by the user id with the supplied
fields set and the others kept (or absent on creation). -/
theorem c3_put_partial_update (db : DB) (s : String) (userId : Int) (b : UpdateBody) (u : UserRow)
    (hp : parseIntJs (some s) = some userId)
    (hv : UsersRoute.updateUserSchemaErrors b = [])
    (hu : db.users.find? (fun w => w.id == userId) = some u)
    (huniq : db.users.any (fun w => w.id != userId &&
        (w.username == (UsersRoute.applyUserUpdate u b).username ||
         w.email == (UsersRoute.applyUserUpdate u b).email)) = false) :
    (UsersRoute.PUT db (some s) b).1.status = 200 ∧
    (UsersRoute.PUT db (some s) b).2.users.find? (fun w => w.id == userId) =
      some (UsersRoute.applyUserUpdate u b) ∧
    (UsersRoute.applyUserUpdate u b).password =
      (match b.password with | some pw => bcryptHash pw | none => u.password) ∧
    (UsersRoute.hasProfileField b = true →
      ∃ p, (UsersRoute.PUT db (some s) b).2.profiles.find? (fun q => q.userId == userId) = some p ∧
        (b.firstName.isSome = true → p.firstName = b.firstName) ∧
        (b.lastName.isSome = true → p.lastName = b.lastName) ∧
        (b.phone.isSome = true → p.phone = b.phone) ∧
        (b.address.isSome = true → p.address = b.address)) := by
  have hid0 := List.find?_some hu
  have hid : ((UsersRoute.applyUserUpdate u b).id == userId) = true := hid0
  have hpw : (UsersRoute.applyUserUpdate u b).password =
      (match b.password with | some pw => bcryptHash pw | none => u.password) := by
    cases hb : b.password with
    | none => simp [UsersRoute.applyUserUpdate, hb]
    | some pw => simp [UsersRoute.applyUserUpdate, hb]
  unfold UsersRoute.PUT
  simp only [hp, hv, hu, huniq, Bool.false_eq_true, if_false]
  by_cases hpf : UsersRoute.hasProfileField b = true
  · rw [if_pos hpf]
    refine ⟨rfl, ?_, hpw, fun _ => ?_⟩
    · unfold UsersRoute.upsertProfile
      cases hprof : db.profiles.find? (fun q => q.userId == userId) with
      | some p => exact find?_map_replace _ _ u _ hid hu
      | none => exact find?_map_replace _ _ u _ hid hu
    · unfold UsersRoute.upsertProfile
      cases hprof : db.profiles.find? (fun q => q.userId == userId) with
      | some p =>
        have hpid := List.find?_some hprof
        refine ⟨_, find?_map_replace _ _ p _ hpid hprof, ?_, ?_, ?_, ?_⟩
        · intro hfn
          cases hfb : b.firstName with
          | none => rw [hfb] at hfn; simp at hfn
          | some v => rfl
        · intro hln
          cases hlb : b.lastName with
          | none => rw [hlb] at hln; simp at hln
          | some v => rfl
        · intro hph
          cases hpb : b.phone with
          | none => rw [hpb] at hph; simp at hph
          | some v => rfl
        · intro had
          cases hab : b.address with
          | none => rw [hab] at had; simp at had
          | some v => rfl
      | none =>
        refine ⟨⟨userId, b.firstName, b.lastName, b.phone, b.address⟩, ?_,
                fun _ => rfl, fun _ => rfl, fun _ => rfl, fun _ => rfl⟩
        rw [List.find?_append, hprof]
        simp [List.find?]
  · rw [if_neg hpf]
    refine ⟨rfl, ?_, hpw, fun hcon => absurd hcon hpf⟩
    exact find?_map_replace _ _ u _ hid hu

/-- C3 witness: the amended theorem at a concrete database — a phone-only
payload is accepted (200), the stored user row is untouched (password kept),
and the existing profile is updated with that phone number. -/
theorem c3_put_partial_update_witness :
    (UsersRoute.PUT dbC2 (some "1") phoneOnly).1.status = 200 ∧
    (UsersRoute.PUT dbC2 (some "1") phoneOnly).2.users.find? (fun w => w.id == 1) =
      some (UsersRoute.applyUserUpdate user1 phoneOnly) ∧
    (UsersRoute.applyUserUpdate user1 phoneOnly).password = user1.password ∧
    (∃ p, (UsersRoute.PUT dbC2 (some "1") phoneOnly).2.profiles.find?
        (fun q => q.userId == 1) = some p ∧ p.phone = some "555-1234") := by
  have h := c3_put_partial_update dbC2 "1" 1 phoneOnly user1 rfl rfl rfl rfl
  refine ⟨h.1, h.2.1, h.2.2.1, ?_⟩
  obtain ⟨p, hfound, _, _, hph, _⟩ := h.2.2.2 rfl
  exact ⟨p, hfound, hph rfl⟩

/-- C7 (amended): successful user deletions do answer 204 (the users
collection handler with no body at all, the path-segment handler with a JSON
null body), but the request DELETE handler never answers 204 — its successful
deletions answer 200 with an empty-object body. -/
theorem c7_deletion_statuses (db : DB) (idp : Option String) (s : String) :
    ((UsersRoute.DELETE db idp).resp.status = 204 →
      (UsersRoute.DELETE db idp).resp.body = none) ∧
    ((UserItemRoute.DELETE db s).1.status = 204 →
      (UserItemRoute.DELETE db s).1.body = some JVal.null) ∧
    (RequestsRoute.DELETE db idp).resp.status ≠ 204 ∧
    ((RequestsRoute.DELETE db idp).resp.status = 200 →
      (RequestsRoute.DELETE db idp).resp.body = some (JVal.obj [])) := by
  refine ⟨?_, ?_, ?_, ?_⟩
  · unfold UsersRoute.DELETE UsersRoute.finishDelete
    repeat' split
    all_goals first
      | exact fun _ => rfl
      | exact fun h => by simp at h
  · unfold UserItemRoute.DELETE
    repeat' split
    all_goals first
      | exact fun _ => rfl
      | exact fun h => by simp at h
  · unfold RequestsRoute.DELETE
    repeat' split
    all_goals simp
  · unfold RequestsRoute.DELETE
    repeat' split
    all_goals first
      | exact fun _ => rfl
      | exact fun h => by simp at h

/-- C7 witness: at a concrete database both user DELETE handlers succeed with
204 (no body / JSON null body), and the request DELETE handler's status is not
204 there. -/
theorem c7_deletion_statuses_witness :
    (UsersRoute.DELETE db1 (some "1")).resp.body = none ∧
    (UserItemRoute.DELETE db1 "1").1.body = some JVal.null ∧
    (RequestsRoute.DELETE db1 (some "1")).resp.status ≠ 204 :=
  ⟨(c7_deletion_statuses db1 (some "1") "1").1 rfl,
   (c7_deletion_statuses db1 (some "1") "1").2.1 rfl,
   (c7_deletion_statuses db1 (some "1") "1").2.2.1⟩
